import Mathlib

/-!
Shallow embedding of `src/spotify_mcp_server/spotify_client.py`
(`SpotifyClient` / `SpotifySuperClient`).

External effects are modelled as oracles passed explicitly:
* `SpEnv` — the behaviour of the underlying `spotipy` client (`self.sp`):
  each field maps the arguments actually passed by the facade to either a
  returned value (`Except.ok`) or a raised exception (`Except.error msg`).
* `TivoEnv` — the `hits` array returned by each of the three Tivo
  endpoints, keyed by the query value placed in the URL.
* `RandEnv` — the behaviour of `random.sample` / `random.shuffle`.

Python result-envelope dicts `{"success": ..., "data"/"error": ...,
"message": ...}` are modelled by the `Envelope` inductive; only the
fields the code ever reads are modelled on the payload records.
-/

set_option linter.unusedVariables false

namespace SpotifyMCP

/-- A primary-service artist object; the code reads `artist["id"]` and
`artist["name"]`. -/
structure Artist where
  id : String
  name : String
  deriving DecidableEq, Repr

/-- A primary-service track object as consumed by `recall_artists`;
only `track["artists"]` is read. -/
structure Track where
  artists : List Artist
  deriving DecidableEq, Repr

/-- An item of `current_user_recently_played`: the code reads
`item["track"]`. -/
structure RecentItem where
  track : Track
  deriving DecidableEq, Repr

/-- A playlist object: the code reads `playlist["id"]`. -/
structure Playlist where
  id : String
  deriving DecidableEq, Repr

/-- An item of `playlist_tracks`: the code reads `item["track"]`. -/
structure PlaylistItem where
  track : Track
  deriving DecidableEq, Repr

/-- An album object: the code reads `album["artists"]`. -/
structure Album where
  artists : List Artist
  deriving DecidableEq, Repr

/-- An item of `current_user_saved_albums`: the code reads `item["album"]`. -/
structure SavedAlbumItem where
  album : Album
  deriving DecidableEq, Repr

/-- An item of `current_user_saved_tracks`: the code reads `item["track"]`. -/
structure SavedTrackItem where
  track : Track
  deriving DecidableEq, Repr

/-- A paging object: the code reads `response["items"]`. -/
structure Paging (α : Type) where
  items : List α
  deriving DecidableEq, Repr

/-- Payload of `current_user_followed_artists`: the code reads
`data["artists"]["items"]`. -/
structure FollowedData where
  artists : Paging Artist
  deriving DecidableEq, Repr

/-- A full primary-service track object returned by search.  The code
reads `item["id"]` and `item["artists"]` (the object itself is kept
whole in the output list; remaining fields are not consumed). -/
structure STrack where
  id : String
  name : String
  artists : List Artist
  deriving DecidableEq, Repr

/-- Payload of `sp.search(type='track')`: the code reads
`results["tracks"]["items"]`. -/
structure SearchData where
  tracks : Paging STrack
  deriving DecidableEq, Repr

/-- A user profile object (returned whole by `get_user_profile`). -/
structure Profile where
  id : String
  deriving DecidableEq, Repr

/-- The uniform result envelope every facade operation returns:
`{"success": True, "data": ..., "message": ...}` or
`{"success": False, "error": ..., "message": ...}`. -/
inductive Envelope (α : Type) where
  | ok (data : α) (message : String)
  | err (error : String) (message : String)
  deriving DecidableEq, Repr

/-- `result["success"]`. -/
def Envelope.success {α : Type} : Envelope α → Bool
  | .ok _ _ => true
  | .err _ _ => false

/-- Behaviour of the underlying `spotipy` client (`self.sp`): each field
is the outcome of one endpoint as a function of the arguments the facade
passes through, `Except.error e` standing for a raised exception whose
string form is `e`. -/
structure SpEnv where
  currentUser : Except String Profile
  recentlyPlayed : Nat → Except String (Paging RecentItem)
  topTracks : String → Nat → Except String (Paging Track)
  topArtists : String → Nat → Except String (Paging Artist)
  followedArtists : Nat → Option String → Except String FollowedData
  userPlaylists : Nat → Nat → Except String (Paging Playlist)
  playlistTracks : String → Nat → Nat → Except String (Paging PlaylistItem)
  savedAlbums : Nat → Nat → Except String (Paging SavedAlbumItem)
  savedTracks : Nat → Nat → Except String (Paging SavedTrackItem)
  search : String → Nat → Except String SearchData

/-- `SpotifyClient.get_user_profile`. -/
def get_user_profile (sp : SpEnv) : Envelope Profile :=
  match sp.currentUser with
  | .ok user => .ok user "Successfully retrieved user profile"
  | .error e => .err e "Failed to get user profile"

/-- `SpotifyClient.get_recently_played` (Python default `limit = 20`). -/
def get_recently_played (sp : SpEnv) (limit : Nat) : Envelope (Paging RecentItem) :=
  match sp.recentlyPlayed limit with
  | .ok recent =>
      .ok recent ("Successfully retrieved recently played, total: " ++ toString recent.items.length ++ " tracks")
  | .error e => .err e "Failed to get recently played"

/-- `SpotifyClient.get_top_tracks` (Python defaults `time_range = 'medium_term'`,
`limit = 20`). -/
def get_top_tracks (sp : SpEnv) (time_range : String) (limit : Nat) : Envelope (Paging Track) :=
  match sp.topTracks time_range limit with
  | .ok top =>
      .ok top ("Successfully retrieved top tracks, total: " ++ toString top.items.length ++ " tracks")
  | .error e => .err e "Failed to get top tracks"

/-- `SpotifyClient.get_top_artists` (Python defaults `time_range = 'medium_term'`,
`limit = 20`). -/
def get_top_artists (sp : SpEnv) (time_range : String) (limit : Nat) : Envelope (Paging Artist) :=
  match sp.topArtists time_range limit with
  | .ok top =>
      .ok top ("Successfully retrieved top artists, total: " ++ toString top.items.length ++ " artists")
  | .error e => .err e "Failed to get top artists"

/-- `SpotifyClient.get_followed_artists` (Python defaults `limit = 50`,
`after = None`; `after` is forwarded only when truthy). -/
def get_followed_artists (sp : SpEnv) (limit : Nat) (after : Option String) :
    Envelope FollowedData :=
  match sp.followedArtists limit after with
  | .ok d =>
      .ok d ("Successfully retrieved followed artists, total: " ++ toString d.artists.items.length ++ " artists")
  | .error e => .err e "Failed to get followed artists"

/-- `SpotifyClient.get_user_playlists` (Python defaults `limit = 20`,
`offset = 0`). -/
def get_user_playlists (sp : SpEnv) (limit offset : Nat) : Envelope (Paging Playlist) :=
  match sp.userPlaylists limit offset with
  | .ok d =>
      .ok d ("Successfully retrieved playlists, total: " ++ toString d.items.length)
  | .error e => .err e "Failed to get playlists"

/-- `SpotifyClient.get_playlist_tracks` (Python defaults `limit = 100`,
`offset = 0`). -/
def get_playlist_tracks (sp : SpEnv) (playlist_id : String) (limit offset : Nat) :
    Envelope (Paging PlaylistItem) :=
  match sp.playlistTracks playlist_id limit offset with
  | .ok d =>
      .ok d ("Successfully retrieved playlist tracks, total: " ++ toString d.items.length ++ " tracks")
  | .error e => .err e "Failed to get playlist tracks"

/-- `SpotifyClient.get_saved_albums` (Python defaults `limit = 20`,
`offset = 0`). -/
def get_saved_albums (sp : SpEnv) (limit offset : Nat) : Envelope (Paging SavedAlbumItem) :=
  match sp.savedAlbums limit offset with
  | .ok d =>
      .ok d ("Successfully retrieved saved albums, total: " ++ toString d.items.length ++ " albums")
  | .error e => .err e "Failed to get saved albums"

/-- `SpotifyClient.get_saved_tracks` (Python defaults `limit = 20`,
`offset = 0`). -/
def get_saved_tracks (sp : SpEnv) (limit offset : Nat) : Envelope (Paging SavedTrackItem) :=
  match sp.savedTracks limit offset with
  | .ok d =>
      .ok d ("Successfully retrieved saved tracks, total: " ++ toString d.items.length ++ " tracks")
  | .error e => .err e "Failed to get saved tracks"

/-- `SpotifyClient.search_tracks` (Python default `limit = 1`). -/
def search_tracks (sp : SpEnv) (query : String) (limit : Nat) : Envelope SearchData :=
  match sp.search query limit with
  | .ok results =>
      .ok results ("Search successful, found " ++ toString results.tracks.items.length ++ " tracks")
  | .error e => .err e "Search failed"

/-! ### Artist recall aggregator (`SpotifySuperClient.recall_artists`)

The Python code accumulates two parallel lists `artist_ids` /
`artist_names`, always appended in lock-step; we model the accumulated
state as one list of `(id, name)` pairs, one helper per numbered source
block.  The final return value is the pair of projections, matching
`return result_artist_ids, result_artist_names`. -/

/-- The pairs appended for one track object:
`for artist in track["artists"]: append id; append name`. -/
def artist_pairs_of_track (t : Track) : List (String × String) :=
  t.artists.map (fun a => (a.id, a.name))

/-- Source 1, `# 1. recently played`. -/
def recent_pairs (sp : SpEnv) (recent_limit : Nat) : List (String × String) :=
  match get_recently_played sp recent_limit with
  | .ok d _ => d.items.flatMap (fun item => artist_pairs_of_track item.track)
  | .err _ _ => []

/-- Source 2, `# 2. top tracks` (`time_range="long_term"`). -/
def top_track_pairs (sp : SpEnv) (top_limit : Nat) : List (String × String) :=
  match get_top_tracks sp "long_term" top_limit with
  | .ok d _ => d.items.flatMap artist_pairs_of_track
  | .err _ _ => []

/-- Source 3, `# 3. top artists` (`time_range="long_term"`). -/
def top_artist_pairs (sp : SpEnv) (top_limit : Nat) : List (String × String) :=
  match get_top_artists sp "long_term" top_limit with
  | .ok d _ => d.items.map (fun a => (a.id, a.name))
  | .err _ _ => []

/-- Source 4, `# 4. follow artists` (`limit=3`, `after=None`; only the
first page is fetched). -/
def followed_pairs (sp : SpEnv) : List (String × String) :=
  match get_followed_artists sp 3 none with
  | .ok d _ => d.artists.items.map (fun a => (a.id, a.name))
  | .err _ _ => []

/-- Source 5, `# 5. all artist of playlist` (`limit=3, offset=0` for the
playlist page, `limit=3, offset=0` for each playlist's tracks). -/
def playlist_pairs (sp : SpEnv) : List (String × String) :=
  match get_user_playlists sp 3 0 with
  | .ok d _ =>
      d.items.flatMap (fun pl =>
        match get_playlist_tracks sp pl.id 3 0 with
        | .ok td _ => td.items.flatMap (fun item => artist_pairs_of_track item.track)
        | .err _ _ => [])
  | .err _ _ => []

/-- Source 6, `# 6. artist of saved albums` (`limit=3, offset=0`). -/
def saved_album_pairs (sp : SpEnv) : List (String × String) :=
  match get_saved_albums sp 3 0 with
  | .ok d _ => d.items.flatMap (fun item => item.album.artists.map (fun a => (a.id, a.name)))
  | .err _ _ => []

/-- Source 7, `# 7. artists of saved tracks` (`limit=3, offset=0`). -/
def saved_track_pairs (sp : SpEnv) : List (String × String) :=
  match get_saved_tracks sp 3 0 with
  | .ok d _ => d.items.flatMap (fun item => artist_pairs_of_track item.track)
  | .err _ _ => []

/-- The concatenated `(artist_id, artist_name)` stream collected by
`recall_artists` before the de-duplication loop, in source order. -/
def recall_source_pairs (sp : SpEnv) (top_limit recent_limit : Nat) : List (String × String) :=
  recent_pairs sp recent_limit ++ top_track_pairs sp top_limit ++
    top_artist_pairs sp top_limit ++ followed_pairs sp ++ playlist_pairs sp ++
    saved_album_pairs sp ++ saved_track_pairs sp

/-- The `# de-duplicate artist ids and names` loop: a pair is kept iff
its id is not already among the kept ids (`seen` is the list of ids kept
so far, which is all the membership test consults). -/
def dedup_pairs_aux : List (String × String) → List String → List (String × String)
  | [], _ => []
  | p :: ps, seen =>
      if seen.contains p.1 then dedup_pairs_aux ps seen
      else p :: dedup_pairs_aux ps (p.1 :: seen)

/-- De-duplication starting from empty `result_artist_ids`. -/
def dedup_pairs (ps : List (String × String)) : List (String × String) :=
  dedup_pairs_aux ps []

/-- `SpotifySuperClient.recall_artists` (Python defaults: every limit
parameter is 5).  `playlist_limit`, `album_limit` and
`saved_tracks_limit` appear in the signature but the corresponding
queries pass the literal `3`. -/
def recall_artists (sp : SpEnv)
    (top_limit recent_limit playlist_limit album_limit saved_tracks_limit : Nat) :
    List String × List String :=
  let res := dedup_pairs (recall_source_pairs sp top_limit recent_limit)
  (res.map Prod.fst, res.map Prod.snd)

/-! ### Secondary (Tivo) catalog client -/

/-- A Tivo candidate track; the real record also carries `performers`,
`composers`, `duration`, `disc`, `phyTrackNum`, `isPick`, but only
`title` (and the object's identity) is consumed downstream. -/
structure TivoTrack where
  id : String
  title : String
  deriving DecidableEq, Repr

/-- A search / discography hit; the code reads `hit["id"]`. -/
structure IdHit where
  id : String
  deriving DecidableEq, Repr

/-- An album-lookup hit; `none` models a hit dict without a `"tracks"`
key (`'tracks' in data['hits'][0]` is false). -/
structure AlbumHit where
  tracks : Option (List TivoTrack)
  deriving DecidableEq, Repr

/-- Behaviour of the three Tivo endpoints: each field returns the
`hits` array for the query value interpolated into the URL (an empty
list also models a null / missing `hits`, which Python's truthiness
test treats identically). -/
structure TivoEnv where
  searchArtist : String → List IdHit
  discography : String → List IdHit
  albumLookup : String → List AlbumHit

/-- Python's `artist_name.replace(' ', '+')`: with a single-character
pattern and replacement this is exactly a character map. -/
def space_to_plus (s : String) : String :=
  String.mk (s.data.map (fun c => if c = ' ' then '+' else c))

/-- `SpotifyClient.get_tivo_artist_ids`: one artist-search request per
name (query = the name with spaces turned into `+`); keep the first
hit's id, skip the name when there are no hits. -/
def get_tivo_artist_ids (tv : TivoEnv) : List String → List String
  | [] => []
  | name :: rest =>
      match tv.searchArtist (space_to_plus name) with
      | [] => get_tivo_artist_ids tv rest
      | h :: _ => h.id :: get_tivo_artist_ids tv rest

/-- Python `dict` assignment `d[k] = v`: overwrite in place when the key
exists, else append at the end (insertion order preserved). -/
def dict_insert (d : List (String × List String)) (k : String) (v : List String) :
    List (String × List String) :=
  if (d.map Prod.fst).contains k then
    d.map (fun p => if p.1 == k then (k, v) else p)
  else d ++ [(k, v)]

/-- `SpotifyClient.get_tivo_artist_album_ids`: one discography request
per artist id; on at least one hit, store the ids of the first two hits
(`data['hits'][:2]`), on zero hits `continue` (no entry at all). -/
def get_tivo_artist_album_ids_aux (tv : TivoEnv) (d : List (String × List String)) :
    List String → List (String × List String)
  | [] => d
  | aid :: rest =>
      match tv.discography aid with
      | [] => get_tivo_artist_album_ids_aux tv d rest
      | hits@(_ :: _) =>
          get_tivo_artist_album_ids_aux tv
            (dict_insert d aid ((hits.take 2).map IdHit.id)) rest

/-- `get_tivo_artist_album_ids` starting from the empty dict. -/
def get_tivo_artist_album_ids (tv : TivoEnv) (artist_ids : List String) :
    List (String × List String) :=
  get_tivo_artist_album_ids_aux tv [] artist_ids

/-- Behaviour of the `random` module calls: `sample l n` models
`random.sample(l, n)` (n distinct positions of `l`, uniform), the two
shuffle fields model `random.shuffle` on the two list types it is
applied to. -/
structure RandEnv where
  sample : List TivoTrack → Nat → List TivoTrack
  shuffleT : List TivoTrack → List TivoTrack
  shuffleS : List STrack → List STrack

/-- The tracks one album id contributes inside
`get_tivo_tracks_in_albums`: nothing on zero hits or when the first hit
has no `tracks` key; `random.sample(tracks, 10)` when the first hit has
more than 10 tracks; all tracks otherwise. -/
def tivo_album_contribution (rnd : RandEnv) (tv : TivoEnv) (album_id : String) :
    List TivoTrack :=
  match tv.albumLookup album_id with
  | [] => []
  | hit :: _ =>
      match hit.tracks with
      | none => []
      | some ts => if ts.length > 10 then rnd.sample ts 10 else ts

/-- `SpotifyClient.get_tivo_tracks_in_albums`: the loop extends the
accumulator with each album's contribution in order. -/
def get_tivo_tracks_in_albums (rnd : RandEnv) (tv : TivoEnv) : List String → List TivoTrack
  | [] => []
  | aid :: rest =>
      tivo_album_contribution rnd tv aid ++ get_tivo_tracks_in_albums rnd tv rest

/-- `SpotifyClient.get_tivo_tracks_in_artist_album_dict`: extend with
`get_tivo_tracks_in_albums(album_ids)` for each dict entry in order. -/
def get_tivo_tracks_in_artist_album_dict (rnd : RandEnv) (tv : TivoEnv)
    (artist_album_dict : List (String × List String)) : List TivoTrack :=
  artist_album_dict.flatMap (fun p => get_tivo_tracks_in_albums rnd tv p.2)

/-! ### Track recall orchestrator (`SpotifySuperClient`) -/

/-- Result dict of `recall_all_tracks`:
`{'success': True, 'data': {'tracks': ...}, 'message': ...}`. -/
structure RecallResult where
  success : Bool
  tracks : List STrack
  message : String
  deriving DecidableEq, Repr

/-- Result dict of `random_fill`: additionally carries the parallel
`track_ids` and `artist_names` arrays. -/
structure RandomFillResult where
  success : Bool
  tracks : List STrack
  track_ids : List String
  artist_names : List String
  message : String
  deriving DecidableEq, Repr

/-- The title-search loop of `recall_all_tracks` (lines 777–785).  The
accumulator state is `(search_tracks, search_track_ids)`.  The loop
tests `search_item['id'] in search_track_ids` before keeping a result,
but the statement `search_track_ids.append(search_item['id'])` is
commented out in the source, so the id list is never extended; the
embedding reproduces this literally. -/
def recall_search_loop_aux (sp : SpEnv) (acc : List STrack × List String) :
    List String → List STrack × List String
  | [] => acc
  | title :: rest =>
      match search_tracks sp title 1 with
      | .ok d _ =>
          match d.tracks.items with
          | [] => recall_search_loop_aux sp acc rest
          | item :: _ =>
              if acc.2.contains item.id then recall_search_loop_aux sp acc rest
              else recall_search_loop_aux sp (acc.1 ++ [item], acc.2) rest
      | .err _ _ => recall_search_loop_aux sp acc rest

/-- The kept search results of the `recall_all_tracks` title loop. -/
def recall_search_loop (sp : SpEnv) (titles : List String) : List STrack :=
  (recall_search_loop_aux sp ([], []) titles).1

/-- `SpotifySuperClient.recall_all_tracks`: recall artists (all
defaults, so every limit is 5), keep the first 3 names, resolve through
the Tivo chain, shuffle the candidates, search each title, shuffle the
kept results, and wrap as an always-successful envelope. -/
def recall_all_tracks (sp : SpEnv) (tv : TivoEnv) (rnd : RandEnv) : RecallResult :=
  let artist_names := (recall_artists sp 5 5 5 5 5).2
  let artist_ids := get_tivo_artist_ids tv (artist_names.take 3)
  let artist_album_dict := get_tivo_artist_album_ids tv artist_ids
  let tivo_tracks := rnd.shuffleT (get_tivo_tracks_in_artist_album_dict rnd tv artist_album_dict)
  let recall_track_titles := tivo_tracks.map TivoTrack.title
  let found := recall_search_loop sp recall_track_titles
  { success := true
    tracks := rnd.shuffleS found
    message := "Successfully recall tracks" }

/-- The title-search loop of `random_fill` (lines 820–826): every
first result is kept unconditionally, together with its id and the
comma-joined artist names. -/
def random_fill_search_loop (sp : SpEnv) :
    List String → List STrack × List String × List String
  | [] => ([], [], [])
  | title :: rest =>
      let acc := random_fill_search_loop sp rest
      match search_tracks sp title 1 with
      | .ok d _ =>
          match d.tracks.items with
          | [] => acc
          | item :: _ =>
              (item :: acc.1, item.id :: acc.2.1,
                String.intercalate ", " (item.artists.map Artist.name) :: acc.2.2)
      | .err _ _ => acc

/-- `SpotifySuperClient.random_fill` (Python default `num_tracks = 10`):
recall artists (all limits 5), resolve **all** recalled names through
the Tivo chain, `random.sample` `min(num_tracks, len(tivo_tracks))`
candidates, search each sampled title, and wrap as an
always-successful envelope. -/
def random_fill (sp : SpEnv) (tv : TivoEnv) (rnd : RandEnv) (num_tracks : Nat) :
    RandomFillResult :=
  let artist_names := (recall_artists sp 5 5 5 5 5).2
  let artist_ids := get_tivo_artist_ids tv artist_names
  let artist_album_dict := get_tivo_artist_album_ids tv artist_ids
  let tivo_tracks0 := get_tivo_tracks_in_artist_album_dict rnd tv artist_album_dict
  let tivo_tracks := rnd.sample tivo_tracks0 (min num_tracks tivo_tracks0.length)
  let recall_track_titles := tivo_tracks.map TivoTrack.title
  let found := random_fill_search_loop sp recall_track_titles
  { success := true
    tracks := found.1
    track_ids := found.2.1
    artist_names := found.2.2
    message := "Successfully random fill" }

/-- The first search hit for a title under `search_tracks(title)`
(limit 1): `none` on a failure envelope or an empty item list. -/
def first_search_hit (sp : SpEnv) (title : String) : Option STrack :=
  match search_tracks sp title 1 with
  | .ok d _ => d.tracks.items.head?
  | .err _ _ => none

/-- The candidate-track pool of `random_fill` before sampling: the Tivo
chain applied to **all** recalled artist names (`random_fill`'s
`tivo_tracks` just before `random.sample`). -/
def rf_candidates (sp : SpEnv) (tv : TivoEnv) (rnd : RandEnv) : List TivoTrack :=
  get_tivo_tracks_in_artist_album_dict rnd tv
    (get_tivo_artist_album_ids tv (get_tivo_artist_ids tv (recall_artists sp 5 5 5 5 5).2))

/-! ### Concrete environments used for scenarios, counterexamples and
witnesses -/

/-- A primary-service behaviour where only the top-artists endpoint
succeeds (with two artists); every other call raises. -/
def spOnlyTop : SpEnv where
  currentUser := .error "boom"
  recentlyPlayed := fun _ => .error "boom"
  topTracks := fun _ _ => .error "boom"
  topArtists := fun _ _ => .ok ⟨[⟨"i1", "n1"⟩, ⟨"i2", "n2"⟩]⟩
  followedArtists := fun _ _ => .error "boom"
  userPlaylists := fun _ _ => .error "boom"
  playlistTracks := fun _ _ _ => .error "boom"
  savedAlbums := fun _ _ => .error "boom"
  savedTracks := fun _ _ => .error "boom"
  search := fun _ _ => .error "boom"

/-- A primary-service behaviour where the only recalled artist is `"A"`
and every track-title search returns the single track with id `"x"`. -/
def spDup : SpEnv where
  currentUser := .error "x"
  recentlyPlayed := fun _ => .error "x"
  topTracks := fun _ _ => .error "x"
  topArtists := fun _ _ => .ok ⟨[⟨"aid", "A"⟩]⟩
  followedArtists := fun _ _ => .error "x"
  userPlaylists := fun _ _ => .error "x"
  playlistTracks := fun _ _ _ => .error "x"
  savedAlbums := fun _ _ => .error "x"
  savedTracks := fun _ _ => .error "x"
  search := fun _ _ => .ok ⟨⟨[⟨"x", "X", []⟩]⟩⟩

/-- A primary-service behaviour whose track search always succeeds with
zero results. -/
def spNoHits : SpEnv where
  currentUser := .error "x"
  recentlyPlayed := fun _ => .error "x"
  topTracks := fun _ _ => .error "x"
  topArtists := fun _ _ => .ok ⟨[⟨"aid", "A"⟩]⟩
  followedArtists := fun _ _ => .error "x"
  userPlaylists := fun _ _ => .error "x"
  playlistTracks := fun _ _ _ => .error "x"
  savedAlbums := fun _ _ => .error "x"
  savedTracks := fun _ _ => .error "x"
  search := fun _ _ => .ok ⟨⟨[]⟩⟩

/-- A Tivo behaviour resolving artist `"A"` to one album with two
candidate tracks titled `"S1"`, `"S2"`. -/
def tenvDup : TivoEnv where
  searchArtist := fun n => if n == "A" then [⟨"ta"⟩] else []
  discography := fun i => if i == "ta" then [⟨"alb"⟩] else []
  albumLookup := fun a => if a == "alb" then [⟨some [⟨"t1", "S1"⟩, ⟨"t2", "S2"⟩]⟩] else []

/-- A deterministic instance of the `random` oracles: sampling takes a
prefix, shuffling is the identity (a legitimate sample / permutation). -/
def renvId : RandEnv where
  sample := fun l n => l.take n
  shuffleT := fun l => l
  shuffleS := fun l => l

/-- A Tivo behaviour with three discography hits for `"a"` and none for
`"b"`. -/
def tenvDisc : TivoEnv where
  searchArtist := fun _ => []
  discography := fun i => if i == "a" then [⟨"x"⟩, ⟨"y"⟩, ⟨"z"⟩] else []
  albumLookup := fun _ => []

/-- Twelve distinct candidate tracks. -/
def twelveTracks : List TivoTrack :=
  [⟨"1", "s1"⟩, ⟨"2", "s2"⟩, ⟨"3", "s3"⟩, ⟨"4", "s4"⟩, ⟨"5", "s5"⟩, ⟨"6", "s6"⟩,
    ⟨"7", "s7"⟩, ⟨"8", "s8"⟩, ⟨"9", "s9"⟩, ⟨"10", "s10"⟩, ⟨"11", "s11"⟩, ⟨"12", "s12"⟩]

/-- A Tivo behaviour with one twelve-track album hit for `"big"`, one
two-track hit for `"small"`, a hit without a `tracks` field for
`"bare"`, and zero hits otherwise. -/
def tenvAlbums : TivoEnv where
  searchArtist := fun _ => []
  discography := fun _ => []
  albumLookup := fun a =>
    if a == "big" then [⟨some twelveTracks⟩]
    else if a == "small" then [⟨some [⟨"1", "s1"⟩, ⟨"2", "s2"⟩]⟩]
    else if a == "bare" then [⟨none⟩]
    else []

/-- A Tivo behaviour answering the artist query `"a+b"` with one hit. -/
def tenvEsc : TivoEnv where
  searchArtist := fun n => if n == "a+b" then [⟨"id1"⟩] else []
  discography := fun _ => []
  albumLookup := fun _ => []

/-- Like `tenvEsc` on the query `"a+b"`, different everywhere else. -/
def tenvEsc2 : TivoEnv where
  searchArtist := fun n => if n == "a+b" then [⟨"id1"⟩] else [⟨"junk"⟩]
  discography := fun _ => []
  albumLookup := fun _ => []

/-! ### Helper lemmas -/

lemma zip_map_proj (l : List (String × String)) :
    (l.map Prod.fst).zip (l.map Prod.snd) = l := by
  induction l with
  | nil => rfl
  | cons p ps ih => simp [ih]

lemma dedup_pairs_aux_sublist (ps : List (String × String)) :
    ∀ seen, List.Sublist (dedup_pairs_aux ps seen) ps := by
  induction ps with
  | nil => intro seen; simp [dedup_pairs_aux]
  | cons p ps ih =>
      intro seen
      simp only [dedup_pairs_aux]
      split
      · exact (ih seen).cons p
      · exact (ih (p.1 :: seen)).cons₂ p

lemma mem_dedup_pairs_aux (ps : List (String × String)) :
    ∀ seen p, p ∈ dedup_pairs_aux ps seen ↔
      (ps.find? (fun q => q.1 == p.1) = some p ∧ seen.contains p.1 = false) := by
  induction ps with
  | nil => intro seen p; simp [dedup_pairs_aux]
  | cons q ps ih =>
      intro seen p
      simp only [dedup_pairs_aux, List.find?_cons]
      by_cases hqp : (q.1 == p.1) = true
      · have hqp' : q.1 = p.1 := eq_of_beq hqp
        simp only [hqp]
        by_cases hq : seen.contains q.1 = true
        · rw [if_pos hq, ih]
          constructor
          · rintro ⟨hfind, hseen⟩
            rw [hqp'] at hq
            rw [hq] at hseen
            cases hseen
          · rintro ⟨hpq, hseen⟩
            rw [hqp'] at hq
            rw [hq] at hseen
            cases hseen
        · rw [if_neg hq]
          simp only [List.mem_cons, ih]
          constructor
          · rintro (rfl | ⟨hfind, hseen⟩)
            · refine ⟨rfl, ?_⟩
              rw [← hqp']
              simpa using hq
            · simp only [List.contains_cons, Bool.or_eq_false_iff] at hseen
              rw [hqp'] at hseen
              simp at hseen
          · rintro ⟨hpq, hseen⟩
            have hq' : q = p := by injection hpq
            exact Or.inl hq'.symm
      · have hqp0 : (q.1 == p.1) = false := by simpa using hqp
        have hne : q.1 ≠ p.1 := by simpa using hqp0
        simp only [hqp0]
        by_cases hq : seen.contains q.1 = true
        · rw [if_pos hq]; exact ih seen p
        · rw [if_neg hq]
          simp only [List.mem_cons, ih]
          constructor
          · rintro (rfl | ⟨hfind, hseen⟩)
            · simp at hqp0
            · refine ⟨hfind, ?_⟩
              simp only [List.contains_cons, Bool.or_eq_false_iff] at hseen
              exact hseen.2
          · rintro ⟨hfind, hseen⟩
            refine Or.inr ⟨hfind, ?_⟩
            simp only [List.contains_cons, Bool.or_eq_false_iff]
            exact ⟨by simpa using hne.symm, hseen⟩

lemma nodup_fst_dedup_pairs_aux (ps : List (String × String)) :
    ∀ seen, ((dedup_pairs_aux ps seen).map Prod.fst).Nodup := by
  induction ps with
  | nil => intro seen; simp [dedup_pairs_aux]
  | cons p ps ih =>
      intro seen
      simp only [dedup_pairs_aux]
      split
      · exact ih seen
      · simp only [List.map_cons, List.nodup_cons]
        refine ⟨?_, ih (p.1 :: seen)⟩
        intro hmem
        rcases List.mem_map.mp hmem with ⟨q, hq, hfst⟩
        have := ((mem_dedup_pairs_aux ps (p.1 :: seen) q).mp hq).2
        simp only [List.contains_cons, Bool.or_eq_false_iff] at this
        rw [hfst] at this
        simpa using this.1
lemma mem_dict_insert {d : List (String × List String)} {k : String}
    {v : List String} {p : String × List String} (hp : p ∈ dict_insert d k v) :
    p ∈ d ∨ p = (k, v) := by
  unfold dict_insert at hp
  split at hp
  · rcases List.mem_map.mp hp with ⟨q, hq, hfq⟩
    by_cases hqk : (q.1 == k) = true
    · rw [if_pos hqk] at hfq
      exact Or.inr hfq.symm
    · rw [if_neg hqk] at hfq
      exact Or.inl (hfq ▸ hq)
  · rcases List.mem_append.mp hp with hold | hnew
    · exact Or.inl hold
    · exact Or.inr (List.mem_singleton.mp hnew)

lemma mem_map_fst_dict_insert (d : List (String × List String)) (k : String)
    (v : List String) (x : String) :
    x ∈ (dict_insert d k v).map Prod.fst ↔ x ∈ d.map Prod.fst ∨ x = k := by
  unfold dict_insert
  split
  · rename_i hcontains
    have hmaps : (d.map (fun p => if p.1 == k then (k, v) else p)).map Prod.fst
        = d.map Prod.fst := by
      rw [List.map_map]
      refine List.map_congr_left ?_
      intro q hq
      by_cases hqk : (q.1 == k) = true
      · simp only [Function.comp_apply, if_pos hqk]
        exact (eq_of_beq hqk).symm
      · simp only [Function.comp_apply, if_neg hqk]
    rw [hmaps]
    have hk : k ∈ d.map Prod.fst := by simpa using hcontains
    constructor
    · exact Or.inl
    · rintro (h | rfl)
      · exact h
      · exact hk
  · simp

/-! ### Claim theorems -/

/-- C10: the `playlist_limit`, `album_limit` and `saved_tracks_limit`
parameters of `recall_artists` have no effect on its result — given the
same underlying facade behaviour, two calls differing only in those
three parameters return the same (artist-id, artist-name) lists,
because the playlist, saved-album and saved-track queries pass the
hardcoded limit 3. -/
theorem recall_artists_limit_params_unused (sp : SpEnv)
    (top_limit recent_limit playlist_limit album_limit saved_tracks_limit
      playlist_limit2 album_limit2 saved_tracks_limit2 : Nat) :
    recall_artists sp top_limit recent_limit playlist_limit album_limit saved_tracks_limit
      = recall_artists sp top_limit recent_limit playlist_limit2 album_limit2
          saved_tracks_limit2 := rfl

/-- C7: `recall_artists` tolerates any of the seven sources failing with
an exception (hence an `Err` envelope): a failing source contributes
exactly what an empty successful source contributes, for each of the
seven sources; and in the concrete scenario where only the top-artists
source succeeds with two artists, the result is exactly those two
artists in their original order. -/
theorem recall_artists_err_tolerant :
    (∀ (sp : SpEnv) (t r pl al sv : Nat) (e : String),
      recall_artists { sp with recentlyPlayed := fun _ => .error e } t r pl al sv
        = recall_artists { sp with recentlyPlayed := fun _ => .ok ⟨[]⟩ } t r pl al sv)
    ∧ (∀ (sp : SpEnv) (t r pl al sv : Nat) (e : String),
      recall_artists { sp with topTracks := fun _ _ => .error e } t r pl al sv
        = recall_artists { sp with topTracks := fun _ _ => .ok ⟨[]⟩ } t r pl al sv)
    ∧ (∀ (sp : SpEnv) (t r pl al sv : Nat) (e : String),
      recall_artists { sp with topArtists := fun _ _ => .error e } t r pl al sv
        = recall_artists { sp with topArtists := fun _ _ => .ok ⟨[]⟩ } t r pl al sv)
    ∧ (∀ (sp : SpEnv) (t r pl al sv : Nat) (e : String),
      recall_artists { sp with followedArtists := fun _ _ => .error e } t r pl al sv
        = recall_artists { sp with followedArtists := fun _ _ => .ok ⟨⟨[]⟩⟩ } t r pl al sv)
    ∧ (∀ (sp : SpEnv) (t r pl al sv : Nat) (e : String),
      recall_artists { sp with userPlaylists := fun _ _ => .error e } t r pl al sv
        = recall_artists { sp with userPlaylists := fun _ _ => .ok ⟨[]⟩ } t r pl al sv)
    ∧ (∀ (sp : SpEnv) (t r pl al sv : Nat) (e : String),
      recall_artists { sp with savedAlbums := fun _ _ => .error e } t r pl al sv
        = recall_artists { sp with savedAlbums := fun _ _ => .ok ⟨[]⟩ } t r pl al sv)
    ∧ (∀ (sp : SpEnv) (t r pl al sv : Nat) (e : String),
      recall_artists { sp with savedTracks := fun _ _ => .error e } t r pl al sv
        = recall_artists { sp with savedTracks := fun _ _ => .ok ⟨[]⟩ } t r pl al sv)
    ∧ recall_artists spOnlyTop 5 5 5 5 5 = (["i1", "i2"], ["n1", "n2"]) :=
  ⟨fun _ _ _ _ _ _ _ => rfl, fun _ _ _ _ _ _ _ => rfl, fun _ _ _ _ _ _ _ => rfl,
    fun _ _ _ _ _ _ _ => rfl, fun _ _ _ _ _ _ _ => rfl, fun _ _ _ _ _ _ _ => rfl,
    fun _ _ _ _ _ _ _ => rfl, by decide⟩

/-- C2: for every behaviour of the seven sources, `recall_artists`
returns artist ids without duplicates, in first-occurrence order over
the concatenated source stream (each source's internal order
preserved), and pairs each id with the name seen at that id's first
occurrence: the returned (id, name) pairs are exactly the first pair of
the stream carrying each occurring id. -/
theorem recall_artists_dedup_first_occurrence (sp : SpEnv)
    (top_limit recent_limit playlist_limit album_limit saved_tracks_limit : Nat) :
    ((recall_artists sp top_limit recent_limit playlist_limit album_limit
        saved_tracks_limit).1).Nodup
    ∧ List.Sublist
        (((recall_artists sp top_limit recent_limit playlist_limit album_limit
            saved_tracks_limit).1).zip
          ((recall_artists sp top_limit recent_limit playlist_limit album_limit
            saved_tracks_limit).2))
        (recall_source_pairs sp top_limit recent_limit)
    ∧ ∀ p, p ∈ (((recall_artists sp top_limit recent_limit playlist_limit album_limit
            saved_tracks_limit).1).zip
          ((recall_artists sp top_limit recent_limit playlist_limit album_limit
            saved_tracks_limit).2)) ↔
        (recall_source_pairs sp top_limit recent_limit).find? (fun q => q.1 == p.1)
          = some p := by
  have h1 : (recall_artists sp top_limit recent_limit playlist_limit album_limit
      saved_tracks_limit).1
      = (dedup_pairs (recall_source_pairs sp top_limit recent_limit)).map Prod.fst := rfl
  have h2 : (recall_artists sp top_limit recent_limit playlist_limit album_limit
      saved_tracks_limit).2
      = (dedup_pairs (recall_source_pairs sp top_limit recent_limit)).map Prod.snd := rfl
  refine ⟨?_, ?_, ?_⟩
  · rw [h1]
    exact nodup_fst_dedup_pairs_aux _ []
  · rw [h1, h2, zip_map_proj]
    exact dedup_pairs_aux_sublist _ []
  · intro p
    rw [h1, h2, zip_map_proj]
    rw [show dedup_pairs (recall_source_pairs sp top_limit recent_limit)
        = dedup_pairs_aux (recall_source_pairs sp top_limit recent_limit) [] from rfl,
      mem_dedup_pairs_aux]
    simp


/-- C6: every modelled Account Facade operation converts any behaviour
of the underlying primary-service call into a tagged envelope: a raised
exception becomes the operation's failure envelope (never propagating
past the facade), and a returned value becomes a success envelope
carrying it. -/
theorem facade_envelope_total :
    (∀ (sp : SpEnv) (e : String), sp.currentUser = .error e →
      get_user_profile sp = .err e "Failed to get user profile")
    ∧ (∀ (sp : SpEnv) u, sp.currentUser = .ok u → ∃ m, get_user_profile sp = .ok u m)
    ∧ (∀ (sp : SpEnv) (lim : Nat) (e : String), sp.recentlyPlayed lim = .error e →
      get_recently_played sp lim = .err e "Failed to get recently played")
    ∧ (∀ (sp : SpEnv) (lim : Nat) d, sp.recentlyPlayed lim = .ok d →
      ∃ m, get_recently_played sp lim = .ok d m)
    ∧ (∀ (sp : SpEnv) (tr : String) (lim : Nat) (e : String), sp.topTracks tr lim = .error e →
      get_top_tracks sp tr lim = .err e "Failed to get top tracks")
    ∧ (∀ (sp : SpEnv) (tr : String) (lim : Nat) d, sp.topTracks tr lim = .ok d →
      ∃ m, get_top_tracks sp tr lim = .ok d m)
    ∧ (∀ (sp : SpEnv) (tr : String) (lim : Nat) (e : String), sp.topArtists tr lim = .error e →
      get_top_artists sp tr lim = .err e "Failed to get top artists")
    ∧ (∀ (sp : SpEnv) (tr : String) (lim : Nat) d, sp.topArtists tr lim = .ok d →
      ∃ m, get_top_artists sp tr lim = .ok d m)
    ∧ (∀ (sp : SpEnv) (lim : Nat) (a : Option String) (e : String),
      sp.followedArtists lim a = .error e →
      get_followed_artists sp lim a = .err e "Failed to get followed artists")
    ∧ (∀ (sp : SpEnv) (lim : Nat) (a : Option String) d, sp.followedArtists lim a = .ok d →
      ∃ m, get_followed_artists sp lim a = .ok d m)
    ∧ (∀ (sp : SpEnv) (lim off : Nat) (e : String), sp.userPlaylists lim off = .error e →
      get_user_playlists sp lim off = .err e "Failed to get playlists")
    ∧ (∀ (sp : SpEnv) (lim off : Nat) d, sp.userPlaylists lim off = .ok d →
      ∃ m, get_user_playlists sp lim off = .ok d m)
    ∧ (∀ (sp : SpEnv) (pid : String) (lim off : Nat) (e : String),
      sp.playlistTracks pid lim off = .error e →
      get_playlist_tracks sp pid lim off = .err e "Failed to get playlist tracks")
    ∧ (∀ (sp : SpEnv) (pid : String) (lim off : Nat) d, sp.playlistTracks pid lim off = .ok d →
      ∃ m, get_playlist_tracks sp pid lim off = .ok d m)
    ∧ (∀ (sp : SpEnv) (lim off : Nat) (e : String), sp.savedAlbums lim off = .error e →
      get_saved_albums sp lim off = .err e "Failed to get saved albums")
    ∧ (∀ (sp : SpEnv) (lim off : Nat) d, sp.savedAlbums lim off = .ok d →
      ∃ m, get_saved_albums sp lim off = .ok d m)
    ∧ (∀ (sp : SpEnv) (lim off : Nat) (e : String), sp.savedTracks lim off = .error e →
      get_saved_tracks sp lim off = .err e "Failed to get saved tracks")
    ∧ (∀ (sp : SpEnv) (lim off : Nat) d, sp.savedTracks lim off = .ok d →
      ∃ m, get_saved_tracks sp lim off = .ok d m)
    ∧ (∀ (sp : SpEnv) (q : String) (lim : Nat) (e : String), sp.search q lim = .error e →
      search_tracks sp q lim = .err e "Search failed")
    ∧ (∀ (sp : SpEnv) (q : String) (lim : Nat) d, sp.search q lim = .ok d →
      ∃ m, search_tracks sp q lim = .ok d m) := by
  refine ⟨?_, ?_, ?_, ?_, ?_, ?_, ?_, ?_, ?_, ?_, ?_, ?_, ?_, ?_, ?_, ?_, ?_, ?_, ?_, ?_⟩
  · intro sp e h; simp [get_user_profile, h]
  · intro sp u h
    exact ⟨"Successfully retrieved user profile", by simp [get_user_profile, h]⟩
  · intro sp lim e h; simp [get_recently_played, h]
  · intro sp lim d h
    exact ⟨("Successfully retrieved recently played, total: " ++ toString d.items.length ++ " tracks"),
      by simp [get_recently_played, h]⟩
  · intro sp tr lim e h; simp [get_top_tracks, h]
  · intro sp tr lim d h
    exact ⟨("Successfully retrieved top tracks, total: " ++ toString d.items.length ++ " tracks"),
      by simp [get_top_tracks, h]⟩
  · intro sp tr lim e h; simp [get_top_artists, h]
  · intro sp tr lim d h
    exact ⟨("Successfully retrieved top artists, total: " ++ toString d.items.length ++ " artists"),
      by simp [get_top_artists, h]⟩
  · intro sp lim a e h; simp [get_followed_artists, h]
  · intro sp lim a d h
    exact ⟨("Successfully retrieved followed artists, total: " ++ toString d.artists.items.length ++ " artists"),
      by simp [get_followed_artists, h]⟩
  · intro sp lim off e h; simp [get_user_playlists, h]
  · intro sp lim off d h
    exact ⟨("Successfully retrieved playlists, total: " ++ toString d.items.length),
      by simp [get_user_playlists, h]⟩
  · intro sp pid lim off e h; simp [get_playlist_tracks, h]
  · intro sp pid lim off d h
    exact ⟨("Successfully retrieved playlist tracks, total: " ++ toString d.items.length ++ " tracks"),
      by simp [get_playlist_tracks, h]⟩
  · intro sp lim off e h; simp [get_saved_albums, h]
  · intro sp lim off d h
    exact ⟨("Successfully retrieved saved albums, total: " ++ toString d.items.length ++ " albums"),
      by simp [get_saved_albums, h]⟩
  · intro sp lim off e h; simp [get_saved_tracks, h]
  · intro sp lim off d h
    exact ⟨("Successfully retrieved saved tracks, total: " ++ toString d.items.length ++ " tracks"),
      by simp [get_saved_tracks, h]⟩
  · intro sp q lim e h; simp [search_tracks, h]
  · intro sp q lim d h
    exact ⟨("Search successful, found " ++ toString d.tracks.items.length ++ " tracks"),
      by simp [search_tracks, h]⟩

/-- Witness for `facade_envelope_total` at concrete behaviours: a raised
exception in `current_user` and in `search` yields the two failure
envelopes. -/
theorem facade_envelope_total_witness :
    get_user_profile spDup = .err "x" "Failed to get user profile"
    ∧ search_tracks spOnlyTop "q" 1 = .err "boom" "Search failed" :=
  ⟨facade_envelope_total.1 spDup "x" rfl,
    facade_envelope_total.2.2.2.2.2.2.2.2.2.2.2.2.2.2.2.2.2.2.1 spOnlyTop "q" 1 "boom" rfl⟩


/-- C9: `get_tivo_artist_ids` resolves each name through one lookup
keyed by the name with spaces turned into `+`, emitting the first hit's
id and skipping zero-hit names with no placeholder, in input order
(the result is the in-order `filterMap` of the per-name first hit);
moreover the result depends on the lookup behaviour only at the
escaped input names (one request per name). -/
theorem get_tivo_artist_ids_first_hit (tv : TivoEnv) (names : List String) :
    get_tivo_artist_ids tv names
      = names.filterMap (fun n => ((tv.searchArtist (space_to_plus n)).head?).map IdHit.id)
    ∧ ∀ tv2 : TivoEnv,
      (∀ n ∈ names, tv2.searchArtist (space_to_plus n) = tv.searchArtist (space_to_plus n)) →
      get_tivo_artist_ids tv2 names = get_tivo_artist_ids tv names := by
  constructor
  · induction names with
    | nil => rfl
    | cons n ns ih =>
        simp only [get_tivo_artist_ids, List.filterMap_cons]
        cases h : tv.searchArtist (space_to_plus n) with
        | nil => simpa [h] using ih
        | cons hit rest => simpa [h] using ih
  · intro tv2 hagree
    induction names with
    | nil => rfl
    | cons n ns ih =>
        have hn := hagree n (List.mem_cons_self n ns)
        have ihs := ih (fun m hm => hagree m (List.mem_cons_of_mem n hm))
        simp only [get_tivo_artist_ids, hn]
        cases tv.searchArtist (space_to_plus n) with
        | nil => exact ihs
        | cons hit rest => rw [ihs]

/-- Witness for `get_tivo_artist_ids_first_hit`: for the input name
`"a b"` (escaped to `"a+b"`), a behaviour differing everywhere except
on the query `"a+b"` gives the same output, namely the first hit's id. -/
theorem get_tivo_artist_ids_first_hit_witness :
    get_tivo_artist_ids tenvEsc2 ["a b"] = get_tivo_artist_ids tenvEsc ["a b"]
    ∧ get_tivo_artist_ids tenvEsc ["a b"] = ["id1"] :=
  ⟨(get_tivo_artist_ids_first_hit tenvEsc ["a b"]).2 tenvEsc2 (by decide), by decide⟩

/-- C3: `get_tivo_artist_album_ids` maps every stored artist id to at
most 2 album ids, and an artist id whose discography lookup returns
zero hits is absent from the mapping. -/
theorem get_tivo_artist_album_ids_spec (tv : TivoEnv) (artist_ids : List String) :
    (∀ p ∈ get_tivo_artist_album_ids tv artist_ids, p.2.length ≤ 2)
    ∧ ∀ aid, tv.discography aid = [] →
        ¬ aid ∈ (get_tivo_artist_album_ids tv artist_ids).map Prod.fst := by
  constructor
  · have key : ∀ (ids : List String) (d : List (String × List String)),
        (∀ p ∈ d, p.2.length ≤ 2) →
        ∀ p ∈ get_tivo_artist_album_ids_aux tv d ids, p.2.length ≤ 2 := by
      intro ids
      induction ids with
      | nil => intro d hd; simpa [get_tivo_artist_album_ids_aux] using hd
      | cons aid rest ih =>
          intro d hd
          simp only [get_tivo_artist_album_ids_aux]
          cases h : tv.discography aid with
          | nil => exact ih d hd
          | cons hit hits =>
              refine ih _ ?_
              intro p hp
              rcases mem_dict_insert hp with hold | rfl
              · exact hd p hold
              · simp [List.length_take_le]
    exact key artist_ids [] (by simp)
  · intro aid hzero hmem
    have key : ∀ (ids : List String) (d : List (String × List String)),
        aid ∈ (get_tivo_artist_album_ids_aux tv d ids).map Prod.fst →
        aid ∈ d.map Prod.fst := by
      intro ids
      induction ids with
      | nil => intro d h; simpa [get_tivo_artist_album_ids_aux] using h
      | cons b rest ih =>
          intro d h
          simp only [get_tivo_artist_album_ids_aux] at h
          cases hb : tv.discography b with
          | nil => rw [hb] at h; exact ih d h
          | cons hit hits =>
              rw [hb] at h
              have := ih _ h
              rcases (mem_map_fst_dict_insert _ _ _ _).mp this with hold | rfl
              · exact hold
              · rw [hzero] at hb; cases hb
    have hnil := key artist_ids [] hmem
    simp at hnil

/-- Witness for `get_tivo_artist_album_ids_spec`: with three hits for
`"a"` and none for `"b"`, the key `"b"` is absent. -/
theorem get_tivo_artist_album_ids_spec_witness :
    ¬ "b" ∈ (get_tivo_artist_album_ids tenvDisc ["a", "b"]).map Prod.fst :=
  (get_tivo_artist_album_ids_spec tenvDisc ["a", "b"]).2 "b" rfl


/-- C4: under the `random.sample` contract (a sample of `n ≤ len`
elements has length `n` and draws from the list), each album whose
first hit carries `N` tracks contributes exactly 10 tracks drawn from
those `N` when `N > 10` and exactly the `N` tracks otherwise, an album
with zero hits or whose first hit has no `tracks` field contributes
nothing, and `get_tivo_tracks_in_albums` is the in-order concatenation
of the per-album contributions. -/
theorem get_tivo_tracks_in_albums_cap (rnd : RandEnv) (tv : TivoEnv)
    (hlen : ∀ (l : List TivoTrack) (n : Nat), n ≤ l.length → (rnd.sample l n).length = n)
    (hmem : ∀ (l : List TivoTrack) (n : Nat) (x : TivoTrack), x ∈ rnd.sample l n → x ∈ l) :
    (∀ aid, tv.albumLookup aid = [] → tivo_album_contribution rnd tv aid = [])
    ∧ (∀ aid hit rest, tv.albumLookup aid = hit :: rest → hit.tracks = none →
        tivo_album_contribution rnd tv aid = [])
    ∧ (∀ aid hit rest ts, tv.albumLookup aid = hit :: rest → hit.tracks = some ts →
        (ts.length > 10 →
          (tivo_album_contribution rnd tv aid).length = 10
          ∧ ∀ x ∈ tivo_album_contribution rnd tv aid, x ∈ ts)
        ∧ (ts.length ≤ 10 → tivo_album_contribution rnd tv aid = ts))
    ∧ (∀ aids, get_tivo_tracks_in_albums rnd tv aids
        = aids.flatMap (tivo_album_contribution rnd tv)) := by
  refine ⟨?_, ?_, ?_, ?_⟩
  · intro aid h
    simp [tivo_album_contribution, h]
  · intro aid hit rest hlook htr
    simp [tivo_album_contribution, hlook, htr]
  · intro aid hit rest ts hlook htr
    have hc : tivo_album_contribution rnd tv aid
        = if ts.length > 10 then rnd.sample ts 10 else ts := by
      simp [tivo_album_contribution, hlook, htr]
    constructor
    · intro hbig
      rw [hc, if_pos hbig]
      exact ⟨hlen ts 10 (Nat.le_of_lt hbig), fun x hx => hmem ts 10 x hx⟩
    · intro hsmall
      rw [hc, if_neg (Nat.not_lt.mpr hsmall)]
  · intro aids
    induction aids with
    | nil => rfl
    | cons aid rest ih => simp [get_tivo_tracks_in_albums, ih]

/-- Witness for `get_tivo_tracks_in_albums_cap` at the prefix sampler
`renvId`: the twelve-track album contributes exactly 10 tracks, and the
two-track album contributes its 2 tracks unchanged. -/
theorem get_tivo_tracks_in_albums_cap_witness :
    (tivo_album_contribution renvId tenvAlbums "big").length = 10
    ∧ tivo_album_contribution renvId tenvAlbums "small" = [⟨"1", "s1"⟩, ⟨"2", "s2"⟩]
    ∧ tivo_album_contribution renvId tenvAlbums "bare" = []
    ∧ tivo_album_contribution renvId tenvAlbums "zero" = [] := by
  have h := get_tivo_tracks_in_albums_cap renvId tenvAlbums
    (fun l n hn => by
      simpa [renvId, List.length_take] using Nat.min_eq_left hn)
    (fun l n x hx => List.mem_of_mem_take hx)
  refine ⟨?_, ?_, ?_, ?_⟩
  · exact (((h.2.2.1 "big" ⟨some twelveTracks⟩ [] twelveTracks rfl rfl).1) (by decide)).1
  · exact (h.2.2.1 "small" ⟨some [⟨"1", "s1"⟩, ⟨"2", "s2"⟩]⟩ []
      [⟨"1", "s1"⟩, ⟨"2", "s2"⟩] rfl rfl).2 (by decide)
  · exact h.2.1 "bare" ⟨none⟩ [] rfl rfl
  · exact h.1 "zero" rfl


lemma recall_search_loop_aux_const (sp : SpEnv)
    (hsearch : ∀ (q : String) (lim : Nat) (r : SearchData),
      sp.search q lim = .ok r → r.tracks.items = []) :
    ∀ (titles : List String) (acc : List STrack × List String),
      recall_search_loop_aux sp acc titles = acc := by
  intro titles
  induction titles with
  | nil => intro acc; rfl
  | cons t ts ih =>
      intro acc
      simp only [recall_search_loop_aux]
      cases hs : sp.search t 1 with
      | error e =>
          have hst : search_tracks sp t 1 = .err e "Search failed" := by
            simp [search_tracks, hs]
          rw [hst]
          exact ih acc
      | ok r =>
          have hr := hsearch t 1 r hs
          have hst : search_tracks sp t 1
              = .ok r ("Search successful, found " ++ toString r.tracks.items.length ++ " tracks") := by
            simp [search_tracks, hs]
          simp only [hst, hr]
          exact ih acc

/-- C8: `recall_all_tracks` always returns a success envelope; and in a
run where every title search succeeds with zero results (and shuffling
is a permutation, as `random.shuffle` is), the track list is empty —
an empty stage propagates as an empty collection, never as an error. -/
theorem recall_all_tracks_always_ok (sp : SpEnv) (tv : TivoEnv) (rnd : RandEnv) :
    (recall_all_tracks sp tv rnd).success = true
    ∧ ((∀ l, List.Perm (rnd.shuffleS l) l) →
        (∀ (q : String) (lim : Nat) (r : SearchData),
          sp.search q lim = .ok r → r.tracks.items = []) →
        (recall_all_tracks sp tv rnd).tracks = []) := by
  constructor
  · rfl
  · intro hsh hsearch
    have key : ∀ titles : List String, rnd.shuffleS (recall_search_loop sp titles) = [] := by
      intro titles
      unfold recall_search_loop
      rw [recall_search_loop_aux_const sp hsearch]
      exact (hsh []).eq_nil
    exact key _

/-- Witness for `recall_all_tracks_always_ok`: with every search
returning zero results, the result is the success envelope with an
empty track list. -/
theorem recall_all_tracks_always_ok_witness :
    (recall_all_tracks spNoHits tenvDup renvId).success = true
    ∧ (recall_all_tracks spNoHits tenvDup renvId).tracks = [] :=
  ⟨(recall_all_tracks_always_ok spNoHits tenvDup renvId).1,
    (recall_all_tracks_always_ok spNoHits tenvDup renvId).2
      (fun l => List.Perm.refl l)
      (fun q lim r h => by
        have hr : SearchData.mk ⟨[]⟩ = r := by injection h
        rw [← hr])⟩

lemma random_fill_search_loop_fst (sp : SpEnv) :
    ∀ titles : List String,
      (random_fill_search_loop sp titles).1 = titles.filterMap (first_search_hit sp) := by
  intro titles
  induction titles with
  | nil => rfl
  | cons t ts ih =>
      simp only [random_fill_search_loop, List.filterMap_cons]
      cases hs : search_tracks sp t 1 with
      | ok d m =>
          cases hd : d.tracks.items with
          | nil => simp [first_search_hit, hs, hd, ih]
          | cons item rest => simp [first_search_hit, hs, hd, ih]
      | err e m => simp [first_search_hit, hs, ih]

lemma random_fill_search_loop_ids (sp : SpEnv) :
    ∀ titles : List String,
      (random_fill_search_loop sp titles).2.1
        = ((random_fill_search_loop sp titles).1).map STrack.id := by
  intro titles
  induction titles with
  | nil => rfl
  | cons t ts ih =>
      simp only [random_fill_search_loop]
      cases hs : search_tracks sp t 1 with
      | ok d m =>
          cases hd : d.tracks.items with
          | nil => simpa [hd] using ih
          | cons item rest => simp [hd, ih]
      | err e m => simpa using ih

/-- C5: `random_fill(num_tracks)` resolves the catalog from **all**
recalled artist names (`rf_candidates` is built from the full name
list), samples `min(num_tracks, available)` candidates whose titles are
then each searched exactly once — so with at least `num_tracks`
candidates exactly `num_tracks` searches are attempted — and the output
is the in-order, un-deduplicated, un-shuffled `filterMap` of those
searches (the closing conjunct exhibits a run whose output has
duplicate track ids). -/
theorem random_fill_spec (sp : SpEnv) (tv : TivoEnv) (rnd : RandEnv) (num_tracks : Nat)
    (hlen : ∀ (l : List TivoTrack) (n : Nat), n ≤ l.length → (rnd.sample l n).length = n) :
    ((rnd.sample (rf_candidates sp tv rnd)
        (min num_tracks (rf_candidates sp tv rnd).length)).map TivoTrack.title).length
      = min num_tracks (rf_candidates sp tv rnd).length
    ∧ (num_tracks ≤ (rf_candidates sp tv rnd).length →
        ((rnd.sample (rf_candidates sp tv rnd)
          (min num_tracks (rf_candidates sp tv rnd).length)).map TivoTrack.title).length
        = num_tracks)
    ∧ (random_fill sp tv rnd num_tracks).tracks
      = ((rnd.sample (rf_candidates sp tv rnd)
          (min num_tracks (rf_candidates sp tv rnd).length)).map TivoTrack.title).filterMap
            (first_search_hit sp)
    ∧ (random_fill sp tv rnd num_tracks).track_ids
      = ((random_fill sp tv rnd num_tracks).tracks).map STrack.id
    ∧ ¬ ((random_fill spDup tenvDup renvId 2).track_ids).Nodup := by
  have hlen1 : ((rnd.sample (rf_candidates sp tv rnd)
      (min num_tracks (rf_candidates sp tv rnd).length)).map TivoTrack.title).length
      = min num_tracks (rf_candidates sp tv rnd).length := by
    rw [List.length_map]
    exact hlen _ _ (Nat.min_le_right _ _)
  refine ⟨hlen1, fun hK => by rw [hlen1]; exact Nat.min_eq_left hK, ?_, ?_, ?_⟩
  · exact random_fill_search_loop_fst sp _
  · exact random_fill_search_loop_ids sp _
  · decide

/-- Witness for `random_fill_spec` at the prefix sampler and a
behaviour with two candidate tracks: two titles are sampled and the
parallel id array matches the output tracks. -/
theorem random_fill_spec_witness :
    ((renvId.sample (rf_candidates spDup tenvDup renvId)
        (min 2 (rf_candidates spDup tenvDup renvId).length)).map TivoTrack.title).length = 2
    ∧ (random_fill spDup tenvDup renvId 2).track_ids
      = ((random_fill spDup tenvDup renvId 2).tracks).map STrack.id :=
  ⟨(random_fill_spec spDup tenvDup renvId 2
      (fun l n hn => by simpa [renvId, List.length_take] using Nat.min_eq_left hn)).2.1
      (by decide),
    (random_fill_spec spDup tenvDup renvId 2
      (fun l n hn => by simpa [renvId, List.length_take] using Nat.min_eq_left hn)).2.2.2.1⟩

/-- C1: at a concrete behaviour where two candidate titles resolve to
the same primary-service track (id `"x"`), `recall_all_tracks` keeps
both copies: the membership test guarding the keep is against an id
list whose append is commented out in the source, so it never fires and
the output carries duplicate primary ids, contrary to the documented
dedup intent of that guard. -/
theorem recall_all_tracks_duplicate_ids :
    ((recall_all_tracks spDup tenvDup renvId).tracks).map STrack.id = ["x", "x"]
    ∧ ¬ (((recall_all_tracks spDup tenvDup renvId).tracks).map STrack.id).Nodup :=
  ⟨rfl, by decide⟩


end SpotifyMCP
